import Mathlib

/-!
Verification development for the StreamingChart library (plot-stream-js).

Shallow embedding of the view-state engine: the domain calculator
(`getFullXDomain`, `getFullYDomain`, `calculateXDomain`, `calculateYDomain`
from src/config.js / scalesAxes), the pruning policy (`pruneData` from
src/data.js) and the public state-machine operations of `StreamingChart`
(`addData`, `setView`, `resetView`, `clearData` from src/chart.js,
first/authoritative class version).

Modelling conventions:
* JS numbers are modelled as rationals (ℚ); the float literals 0.1 and 0.05
  are the rationals 1/10 and 1/20.  NaN and Infinity are not representable;
  no claim in scope exercises them.
* A JS value that is either `null` or a number is an `Option ℚ`
  (`none` = null); the JS test `typeof v === "number"` is `Option.isSome`.
* A JS data store object `{seriesId: [{x,y},...]}` is an association list
  `List (String × List Point)`; `for..in` iteration order is list order
  (JS string-keyed property insertion order), new keys are appended.
* `maxDataPointsPerSeries` is `Option ℤ` (`none` = null); all configured
  values in scope are integers, so the `Array.slice` truncation of a
  fractional index never comes into play.
* d3 ordinal color assignment is presentation-only and never observed by a
  claim; a series config records only that a color has been assigned.
* DOM, SVG and rendering calls are external side effects with no influence
  on the modelled state; charts are modelled with a target element present
  (so `setView`/`resetView`/`redraw` are active) and not destroyed unless
  stated.
-/

/-- A data point `{x, y}`; `y = none` models a null y sample, which the
Y-extent computations filter out. -/
structure Point where
  x : ℚ
  y : Option ℚ
deriving DecidableEq

/-- The main data store `{seriesId: [{x,y},...]}` as an association list in
property-insertion order. -/
abbrev DataStore := List (String × List Point)

/-- An axis range configuration `{min, max}` where each bound is null or a
number (source: `config.xAxis.range` / `config.yAxis.range`). -/
structure RangeConfig where
  min : Option ℚ
  max : Option ℚ
deriving DecidableEq

/-- The slice of the chart configuration the view-state engine reads. -/
structure ChartConfig where
  xRange : RangeConfig
  yRange : RangeConfig
  maxDataPointsPerSeries : Option ℤ
deriving DecidableEq

/-- `defaultConfig` from src/config.js, restricted to the modelled fields:
null axis ranges and `maxDataPointsPerSeries: 1000`. -/
def defaultChartConfig : ChartConfig :=
  ⟨⟨none, none⟩, ⟨none, none⟩, some 1000⟩

/-- `d3.extent` on a list of numbers: `none` when the list is empty,
otherwise `some (min, max)`. -/
def extent (l : List ℚ) : Option (ℚ × ℚ) :=
  match l with
  | [] => none
  | v :: vs => some (vs.foldl min v, vs.foldl max v)

/-- All x values across all series, in store/buffer order
(`allX = allX.concat(dataStore[id].map(p => p.x))`). -/
def allXValues (ds : DataStore) : List ℚ :=
  (ds.map (fun e => e.2.map Point.x)).flatten

/-- All non-null y values across all series
(`.map(p => p.y).filter(y => y !== null && !isNaN(y))`). -/
def allYValues (ds : DataStore) : List ℚ :=
  (ds.map (fun e => e.2.filterMap Point.y)).flatten

/-- The non-null y values of points whose x lies in `xd`
(the `visibleY` accumulation inside `calculateYDomain`). -/
def visibleYValues (ds : DataStore) (xd : ℚ × ℚ) : List ℚ :=
  (ds.map (fun e =>
    (e.2.filter (fun p => decide (xd.1 ≤ p.x) && decide (p.x ≤ xd.2))).filterMap Point.y)).flatten

/-- JS `a || b` on numbers, for the padding expressions: falls back to `b`
when `a` is 0 (NaN is not representable here). -/
def jsOr (a b : ℚ) : ℚ := if a = 0 then b else a

/-- The shared Y-padding rule: ±10% of magnitude (or ±0.5) when the extent
is a single value, otherwise ±5% of the span (or ±0.5). -/
def padYDomain (mn mx : ℚ) : ℚ × ℚ :=
  if mn = mx then
    (mn - jsOr |mn * (1 / 10)| (1 / 2), mx + jsOr |mx * (1 / 10)| (1 / 2))
  else
    (mn - jsOr ((mx - mn) * (1 / 20)) (1 / 2),
     mx + jsOr ((mx - mn) * (1 / 20)) (1 / 2))

/-- The final `if (minY >= maxY) minY = maxY - 1` correction after padding. -/
def ensureYOrder (d : ℚ × ℚ) : ℚ × ℚ :=
  if d.1 ≥ d.2 then (d.2 - 1, d.2) else d

/-- `getFullXDomain`: extent of all x values; `[0,1]` with no data; ±1
around a single value. -/
def getFullXDomain (ds : DataStore) : ℚ × ℚ :=
  match extent (allXValues ds) with
  | none => (0, 1)
  | some (mn, mx) => if mn = mx then (mn - 1, mx + 1) else (mn, mx)

/-- `getFullYDomain`: extent of all non-null y values with padding; `[0,1]`
with no data. -/
def getFullYDomain (ds : DataStore) : ℚ × ℚ :=
  match extent (allYValues ds) with
  | none => (0, 1)
  | some (mn, mx) => ensureYOrder (padYDomain mn mx)

/-- `calculateXDomain`: a fully configured range wins (made non-degenerate
as `[min, min+1]`); otherwise individual configured bounds override the
full-data extent, with `[minX-1, maxX+1]` when the result is inverted. -/
def calculateXDomain (cr : RangeConfig) (ds : DataStore) : ℚ × ℚ :=
  match cr.min, cr.max with
  | some mn, some mx => if mn < mx then (mn, mx) else (mn, mn + 1)
  | _, _ =>
    let full := getFullXDomain ds
    let mnX := cr.min.getD full.1
    let mxX := cr.max.getD full.2
    -- the both-configured case cannot reach this branch, so the source's
    -- `[configRange.min, configRange.min + 1]` arm is dead here
    if mnX ≥ mxX then (mnX - 1, mxX + 1) else (mnX, mxX)

/-- `calculateYDomain`: a fully configured range is returned as-is;
otherwise the extent of the y values visible in `xd`, with individual
configured bounds applied and the shared padding; when nothing is visible,
configured bounds or the defaults 0 and 1 (±0.5 if equal). -/
def calculateYDomain (cr : RangeConfig) (ds : DataStore) (xd : ℚ × ℚ) : ℚ × ℚ :=
  match cr.min, cr.max with
  | some mn, some mx => (mn, mx)
  | _, _ =>
    match extent (visibleYValues ds xd) with
    | none =>
      let mn := cr.min.getD 0
      let mx := cr.max.getD 1
      if mn = mx then (mn - 1 / 2, mx + 1 / 2) else (mn, mx)
    | some (mn0, mx0) =>
      let mn := cr.min.getD mn0
      let mx := cr.max.getD mx0
      ensureYOrder (padYDomain mn mx)

/-- `updateScaleDomains`: the X domain from config and data, then the Y
domain from the data visible in that X domain. -/
def updateScaleDomains (cfg : ChartConfig) (ds : DataStore) : (ℚ × ℚ) × (ℚ × ℚ) :=
  let xd := calculateXDomain cfg.xRange ds
  (xd, calculateYDomain cfg.yRange ds xd)

/-- `pruneData` (src/data.js) on one series buffer: when
`maxDataPointsPerSeries` is a number > 0 and the buffer is longer, drop the
oldest `length - max` points.  The source mutates `dataStore[seriesId]` in
place; the guard on `dataStore[seriesId]` only excludes a missing entry
(an empty array is truthy), and at every call site in `addData` the entry
exists, so the store-level wrapping is done by the caller here. -/
def pruneData (maxPoints : Option ℤ) (buf : List Point) : List Point :=
  match maxPoints with
  | none => buf
  | some m =>
    if 0 < m ∧ m < (buf.length : ℤ) then buf.drop (buf.length - m.toNat) else buf

/-- Per-series presentation config (`label`, `lineWidth`, color); the
concrete color string from the d3 ordinal palette is never observed by any
claim, so only the fact that a color has been assigned is recorded. -/
structure SeriesConfig where
  label : String
  lineWidth : ℚ
  hasColor : Bool
deriving DecidableEq

/-- The d3 zoom transform `{k, x, y}`. -/
structure ZoomTransform where
  k : ℚ
  tx : ℚ
  ty : ℚ
deriving DecidableEq

/-- `d3.zoomIdentity`. -/
def zoomIdentity : ZoomTransform := ⟨1, 0, 0⟩

/-- Headless drawing-area width: container 600 minus margins 50+80. -/
def chartWidth : ℚ := 470

/-- Headless drawing-area height: container 400 minus margins 30+40. -/
def chartHeight : ℚ := 330

/-- `StreamingChart` instance state (the private members the claims
observe).  The frozen X/Y domains are set and cleared together at every
site in the source, so they are one optional pair here.  The initial and
reference scales always carry the same domains after every modelled
operation, so one copy (`initialXDomain`/`initialYDomain`) stands for
both. -/
structure ChartState where
  config : ChartConfig
  dataStore : DataStore
  seriesConfigs : List (String × SeriesConfig)
  isFollowing : Bool
  frozenDomain : Option ((ℚ × ℚ) × (ℚ × ℚ))
  scaleXDomain : ℚ × ℚ
  scaleYDomain : ℚ × ℚ
  initialXDomain : ℚ × ℚ
  initialYDomain : ℚ × ℚ
  currentZoomTransform : ZoomTransform
  isZoomingOrPanning : Bool
  isDestroyed : Bool
  warningCount : ℕ
deriving DecidableEq

/-- Inversion of a d3 linear scale with domain `dom` and range `rng`. -/
def linearInvert (dom rng : ℚ × ℚ) (p : ℚ) : ℚ :=
  dom.1 + (p - rng.1) * (dom.2 - dom.1) / (rng.2 - rng.1)

/-- `transform.rescaleX(scale).domain()` for a scale with range
`[0, chartWidth]`: the range endpoints pulled back through the transform
(`t.invertX(p) = (p - x) / k`) and then through the scale. -/
def rescaleXDomain (t : ZoomTransform) (dom : ℚ × ℚ) : ℚ × ℚ :=
  (linearInvert dom (0, chartWidth) ((0 - t.tx) / t.k),
   linearInvert dom (0, chartWidth) ((chartWidth - t.tx) / t.k))

/-- `transform.rescaleY(scale).domain()` for a scale with range
`[chartHeight, 0]`. -/
def rescaleYDomain (t : ZoomTransform) (dom : ℚ × ℚ) : ℚ × ℚ :=
  (linearInvert dom (chartHeight, 0) ((chartHeight - t.ty) / t.k),
   linearInvert dom (chartHeight, 0) ((0 - t.ty) / t.k))

/-- `#updateScalesAndAxes`: no-op during an active gesture; when following,
recompute both domains from data, sync initial scales, force the zoom
transform to identity and clear the frozen domain; when frozen, restore the
frozen domain into the drawing scales; with no frozen domain, fall back to
rescaling the initial scales by the current transform and record the result
as frozen. -/
def updateScalesAndAxes (s : ChartState) : ChartState :=
  if s.isDestroyed then s
  else if s.isZoomingOrPanning then s
  else if s.isFollowing then
    let d := updateScaleDomains s.config s.dataStore
    { s with scaleXDomain := d.1, scaleYDomain := d.2,
             initialXDomain := d.1, initialYDomain := d.2,
             currentZoomTransform := zoomIdentity,
             frozenDomain := none }
  else
    match s.frozenDomain with
    | some fd => { s with scaleXDomain := fd.1, scaleYDomain := fd.2 }
    | none =>
      let sx := rescaleXDomain s.currentZoomTransform s.initialXDomain
      let sy := rescaleYDomain s.currentZoomTransform s.initialYDomain
      { s with scaleXDomain := sx, scaleYDomain := sy,
               frozenDomain := some (sx, sy) }

/-- `redraw()`: recompute/restore scale domains; the line, grid and legend
drawing it also triggers is external rendering with no state effect. -/
def redraw (s : ChartState) : ChartState := updateScalesAndAxes s

/-- Chart construction: d3 linear scales start with domain `[0,1]`, the
zoom transform starts at identity, follow mode is on, and the constructor
ends with an initial `redraw()`. -/
def initChart (cfg : ChartConfig) : ChartState :=
  redraw
    { config := cfg, dataStore := [], seriesConfigs := [],
      isFollowing := true, frozenDomain := none,
      scaleXDomain := (0, 1), scaleYDomain := (0, 1),
      initialXDomain := (0, 1), initialYDomain := (0, 1),
      currentZoomTransform := zoomIdentity,
      isZoomingOrPanning := false, isDestroyed := false, warningCount := 0 }

/-- Lookup of `dataStore[seriesId]`. -/
def dsLookup (ds : DataStore) (id : String) : Option (List Point) :=
  (ds.find? (fun e => e.1 == id)).map (fun e => e.2)

/-- Assignment `dataStore[seriesId] = buf` for an existing key (keeps the
key position, as JS property update does). -/
def dsSet (ds : DataStore) (id : String) (buf : List Point) : DataStore :=
  ds.map (fun e => if e.1 == id then (e.1, buf) else e)

/-- `ensureSeriesExists` (src/data.js): create an empty buffer for a new
series id and a default series config (label = id, lineWidth 1.5, a palette
color); assign a color to a pre-configured series that lacks one. -/
def ensureSeriesExists (id : String) (ds : DataStore)
    (sc : List (String × SeriesConfig)) : DataStore × List (String × SeriesConfig) :=
  let ds1 := match dsLookup ds id with
    | some _ => ds
    | none => ds ++ [(id, [])]
  let sc1 := match (sc.find? (fun e => e.1 == id)).map (fun e => e.2) with
    | none => sc ++ [(id, ⟨id, 3 / 2, true⟩)]
    | some c =>
      if c.hasColor then sc
      else sc.map (fun e => if e.1 == id then (e.1, ⟨c.label, c.lineWidth, true⟩) else e)
  (ds1, sc1)

/-- One series value in an `addData` payload: `x`/`y` fields that each may
fail to be an array (`none`); a y array may contain null entries. -/
structure SeriesInput where
  x : Option (List ℚ)
  y : Option (List (Option ℚ))
deriving DecidableEq

/-- An `addData` argument: series ids in property order, each mapped to a
value that may be missing/falsy (`none`). -/
abbrev AddDataPayload := List (String × Option SeriesInput)

/-- Validation applied to one payload entry by `addData`: the value exists,
`x` and `y` are arrays, and their lengths match. -/
def entryValid (e : String × Option SeriesInput) : Bool :=
  match e.2 with
  | none => false
  | some si =>
    match si.x, si.y with
    | some xs, some ys => xs.length == ys.length
    | _, _ => false

/-- The result of the ingestion loop inside `addData`. -/
structure IngestResult where
  dataStore : DataStore
  seriesConfigs : List (String × SeriesConfig)
  warningCount : ℕ
  dataAdded : Bool
deriving DecidableEq

/-- The `for (const seriesId in data)` loop of `addData`: warn and skip a
series whose value is missing, whose x or y is not an array or whose
lengths differ; otherwise ensure the series exists, append the new points
and prune.  `latestX`/`needsScaleUpdate` from the source have no observable
effect and are omitted. -/
def ingest (cfg : ChartConfig) (entries : AddDataPayload) (ds : DataStore)
    (sc : List (String × SeriesConfig)) (w : ℕ) (added : Bool) : IngestResult :=
  match entries with
  | [] => ⟨ds, sc, w, added⟩
  | (id, v) :: rest =>
    match v with
    | none => ingest cfg rest ds sc (w + 1) added
    | some si =>
      match si.x, si.y with
      | some xs, some ys =>
        if xs.length = ys.length then
          let p := ensureSeriesExists id ds sc
          let newPoints := List.zipWith (fun a b => (⟨a, b⟩ : Point)) xs ys
          if newPoints.isEmpty then ingest cfg rest p.1 p.2 w added
          else
            let buf := (dsLookup p.1 id).getD []
            ingest cfg rest
              (dsSet p.1 id (pruneData cfg.maxDataPointsPerSeries (buf ++ newPoints)))
              p.2 w true
        else ingest cfg rest ds sc (w + 1) added
      | _, _ => ingest cfg rest ds sc (w + 1) added

/-- `addData`: ingest the payload; when nothing was added, stop after the
store mutations; when following and not inside a gesture, recompute scales
and axes; otherwise only the line geometry is redrawn (no state effect). -/
def addData (p : AddDataPayload) (s : ChartState) : ChartState :=
  if s.isDestroyed then s
  else
    let r := ingest s.config p s.dataStore s.seriesConfigs s.warningCount false
    let s1 := { s with dataStore := r.dataStore, seriesConfigs := r.seriesConfigs,
                       warningCount := r.warningCount }
    if r.dataAdded = false then s1
    else if s1.isFollowing && !s1.isZoomingOrPanning then updateScalesAndAxes s1
    else s1

/-- A field of the `setView` argument: absent, null, or a number. -/
inductive JsOptNum where
  | undef
  | null
  | num (q : ℚ)
deriving DecidableEq

/-- `typeof v === "number" ? v : d`. -/
def jsNumOr (v : JsOptNum) (d : ℚ) : ℚ :=
  match v with
  | .num q => q
  | _ => d

/-- A `setView` request `{xMin, xMax, yMin, yMax}`. -/
structure ViewRequest where
  xMin : JsOptNum
  xMax : JsOptNum
  yMin : JsOptNum
  yMax : JsOptNum
deriving DecidableEq

/-- `setView`: turn follow mode off; missing numeric X bounds default to
the current live domain; when `yMin === null || yMax === null` the Y domain
is auto-calculated from the data visible in the target X domain, otherwise
numeric Y bounds are taken with missing ones defaulting to the current live
domain; store the result as the frozen state, sync all scales with the zoom
state reset to identity, and redraw. -/
def setView (v : ViewRequest) (s : ChartState) : ChartState :=
  if s.isDestroyed then s
  else
    let s0 := { s with isFollowing := false, isZoomingOrPanning := false }
    let tx := (jsNumOr v.xMin s0.scaleXDomain.1, jsNumOr v.xMax s0.scaleXDomain.2)
    let ty :=
      if v.yMin = JsOptNum.null ∨ v.yMax = JsOptNum.null then
        calculateYDomain s0.config.yRange s0.dataStore tx
      else
        (jsNumOr v.yMin s0.scaleYDomain.1, jsNumOr v.yMax s0.scaleYDomain.2)
    redraw
      { s0 with frozenDomain := some (tx, ty),
                scaleXDomain := tx, scaleYDomain := ty,
                initialXDomain := tx, initialYDomain := ty,
                currentZoomTransform := zoomIdentity }

/-- `resetView`: turn follow mode on, clear the frozen state, recompute the
natural domains from data and config, sync all scales with the zoom state
reset to identity, and redraw. -/
def resetView (s : ChartState) : ChartState :=
  if s.isDestroyed then s
  else
    let s0 := { s with isFollowing := true, frozenDomain := none,
                       isZoomingOrPanning := false }
    let d := updateScaleDomains s0.config s0.dataStore
    redraw
      { s0 with scaleXDomain := d.1, scaleYDomain := d.2,
                initialXDomain := d.1, initialYDomain := d.2,
                currentZoomTransform := zoomIdentity }

/-- `clearData`: replace the whole data store with a fresh empty object
(series keys are deleted, not emptied) and redraw. -/
def clearData (s : ChartState) : ChartState :=
  if s.isDestroyed then s
  else redraw { s with dataStore := [] }

/-! ### Concrete scenario states used by the claims -/

/-- An empty default chart after `addData({a:{x:[5],y:[5]}})`. -/
def chartA55 : ChartState :=
  addData [("a", some ⟨some [5], some [some 5]⟩)] (initChart defaultChartConfig)

/-- `chartA55` frozen by `setView({xMin:0, xMax:10})` (y bounds absent). -/
def frozenView : ChartState := setView ⟨.num 0, .num 10, .undef, .undef⟩ chartA55

/-- `frozenView` after a further point at x = 50 arrives. -/
def frozenViewAfterData : ChartState :=
  addData [("a", some ⟨some [50], some [some 50]⟩)] frozenView

/-- A default chart holding the single point (5, 100). -/
def chartA100 : ChartState :=
  addData [("a", some ⟨some [5], some [some 100]⟩)] (initChart defaultChartConfig)

/-- `chartA100` after `setView({xMin:0, xMax:10, yMin:0, yMax:1})`. -/
def chartA100Framed : ChartState :=
  setView ⟨.num 0, .num 10, .num 0, .num 1⟩ chartA100

/-- `chartA100Framed` after `setView({xMin:0, xMax:10})` with the y bounds
absent (undefined, not null). -/
def chartA100Reframed : ChartState :=
  setView ⟨.num 0, .num 10, .undef, .undef⟩ chartA100Framed

/-- Chart config with `maxDataPointsPerSeries = 3`. -/
def cfgMax3 : ChartConfig := ⟨⟨none, none⟩, ⟨none, none⟩, some 3⟩

/-- The pruning scenario: points (1,1)..(4,4) added one call at a time to
series "a" of a chart configured with `maxDataPointsPerSeries = 3`. -/
def prunedChart : ChartState :=
  [( [("a", some (⟨some [1], some [some 1]⟩ : SeriesInput))] : AddDataPayload),
   [("a", some ⟨some [2], some [some 2]⟩)],
   [("a", some ⟨some [3], some [some 3]⟩)],
   [("a", some ⟨some [4], some [some 4]⟩)]].foldl (fun s p => addData p s) (initChart cfgMax3)

/-- The scale domains agree with what the domain calculator computes from
the current config and data store (the resting FOLLOWING-state invariant). -/
def domainsConsistent (s : ChartState) : Prop :=
  s.scaleXDomain = (updateScaleDomains s.config s.dataStore).1 ∧
  s.scaleYDomain = (updateScaleDomains s.config s.dataStore).2

/-- Every series buffer in the store has at most `m` points. -/
def storeBounded (m : ℤ) (ds : DataStore) : Prop :=
  ∀ id buf, dsLookup ds id = some buf → (buf.length : ℤ) ≤ m

/-! ### Helper lemmas -/

theorem updateScalesAndAxes_config (s : ChartState) :
    (updateScalesAndAxes s).config = s.config := by
  unfold updateScalesAndAxes
  repeat' split
  all_goals rfl

theorem updateScalesAndAxes_dataStore (s : ChartState) :
    (updateScalesAndAxes s).dataStore = s.dataStore := by
  unfold updateScalesAndAxes
  repeat' split
  all_goals rfl

theorem updateScalesAndAxes_seriesConfigs (s : ChartState) :
    (updateScalesAndAxes s).seriesConfigs = s.seriesConfigs := by
  unfold updateScalesAndAxes
  repeat' split
  all_goals rfl

theorem updateScalesAndAxes_isFollowing (s : ChartState) :
    (updateScalesAndAxes s).isFollowing = s.isFollowing := by
  unfold updateScalesAndAxes
  repeat' split
  all_goals rfl

theorem updateScalesAndAxes_isDestroyed (s : ChartState) :
    (updateScalesAndAxes s).isDestroyed = s.isDestroyed := by
  unfold updateScalesAndAxes
  repeat' split
  all_goals rfl

theorem updateScalesAndAxes_warningCount (s : ChartState) :
    (updateScalesAndAxes s).warningCount = s.warningCount := by
  unfold updateScalesAndAxes
  repeat' split
  all_goals rfl

theorem addData_notFollowing_preserves (s : ChartState) (p : AddDataPayload)
    (h : s.isFollowing = false) :
    (addData p s).scaleXDomain = s.scaleXDomain ∧
    (addData p s).scaleYDomain = s.scaleYDomain := by
  unfold addData
  split
  · exact ⟨rfl, rfl⟩
  · dsimp only
    constructor <;>
    · split
      · rfl
      · have hc : (s.isFollowing && !s.isZoomingOrPanning) = false := by
          rw [h]
          simp
        rw [hc]
        simp

theorem calculateYDomain_no_visible_default (ds : DataStore) (xd : ℚ × ℚ)
    (h : visibleYValues ds xd = []) :
    calculateYDomain ⟨none, none⟩ ds xd = (0, 1) := by
  unfold calculateYDomain
  rw [h]
  with_unfolding_all rfl

theorem clearData_state_effects (s : ChartState)
    (hd : s.isDestroyed = false)
    (hfz : s.isFollowing = false → s.frozenDomain.isSome) :
    (clearData s).dataStore = [] ∧
    (clearData s).seriesConfigs = s.seriesConfigs ∧
    (clearData s).isFollowing = s.isFollowing ∧
    (s.isFollowing = false → (clearData s).frozenDomain = s.frozenDomain) := by
  have hd2 : s.isDestroyed ≠ true := by rw [hd]; simp
  unfold clearData
  rw [if_neg hd2]
  unfold redraw updateScalesAndAxes
  dsimp only
  rw [if_neg hd2]
  by_cases hz : s.isZoomingOrPanning = true
  · rw [if_pos hz]
    exact ⟨rfl, rfl, rfl, fun _ => rfl⟩
  · rw [if_neg hz]
    by_cases hf : s.isFollowing = true
    · rw [if_pos hf]
      refine ⟨rfl, rfl, rfl, ?_⟩
      intro hf2
      rw [hf] at hf2
      exact absurd hf2 (by simp)
    · rw [if_neg hf]
      have hsome := hfz (by revert hf; cases s.isFollowing <;> simp)
      obtain ⟨fd, hfd⟩ := Option.isSome_iff_exists.mp hsome
      rw [hfd]
      exact ⟨rfl, rfl, rfl, fun _ => rfl⟩

/-! ### Claim theorems -/

/-- C1: the claim says the domain calculator never returns a degenerate or
inverted domain; but with only `xAxis.range.min = 100` configured and data
x-extent [0,1], `calculateXDomain` returns the inverted domain (99, 2), and
with a degenerate configured Y range {min:5, max:5}, `calculateYDomain`
returns (5, 5). -/
theorem calculateXDomain_inverted_on_conflicting_min :
    calculateXDomain ⟨some 100, none⟩ [("a", [⟨0, some 0⟩, ⟨1, some 1⟩])] = (99, 2) ∧
    (calculateXDomain ⟨some 100, none⟩ [("a", [⟨0, some 0⟩, ⟨1, some 1⟩])]).2 <
      (calculateXDomain ⟨some 100, none⟩ [("a", [⟨0, some 0⟩, ⟨1, some 1⟩])]).1 ∧
    (calculateYDomain ⟨some 5, some 5⟩ [] (0, 1)).1 =
      (calculateYDomain ⟨some 5, some 5⟩ [] (0, 1)).2 := by
  refine ⟨?_, ?_, ?_⟩
  · with_unfolding_all rfl
  · with_unfolding_all decide
  · with_unfolding_all rfl

/-- C2: in the not-following (frozen) state, `addData` leaves the live X/Y
domains unchanged; in the concrete scenario `setView({xMin:0,xMax:10})`
followed by a point at x = 50, the X view stays [0,10], the Y view is
untouched, and the point is appended to the series buffer. -/
theorem addData_in_frozen_state_preserves_domains :
    (∀ (s : ChartState) (p : AddDataPayload), s.isFollowing = false →
      (addData p s).scaleXDomain = s.scaleXDomain ∧
      (addData p s).scaleYDomain = s.scaleYDomain) ∧
    (frozenView.isFollowing = false ∧
     frozenView.scaleXDomain = (0, 10) ∧
     frozenViewAfterData.scaleXDomain = (0, 10) ∧
     frozenViewAfterData.scaleYDomain = frozenView.scaleYDomain ∧
     dsLookup frozenViewAfterData.dataStore "a" = some [⟨5, some 5⟩, ⟨50, some 50⟩]) := by
  refine ⟨fun s p h => addData_notFollowing_preserves s p h, ?_, ?_, ?_, ?_, ?_⟩ <;>
    with_unfolding_all rfl

/-- Witness for C2: the frozen scenario state satisfies the hypothesis and
the conclusion of the universally quantified part. -/
theorem addData_in_frozen_state_preserves_domains_witness :
    frozenView.isFollowing = false ∧
    ((addData [("a", some ⟨some [50], some [some 50]⟩)] frozenView).scaleXDomain =
       frozenView.scaleXDomain ∧
     (addData [("a", some ⟨some [50], some [some 50]⟩)] frozenView).scaleYDomain =
       frozenView.scaleYDomain) :=
  ⟨by with_unfolding_all rfl,
   addData_in_frozen_state_preserves_domains.1 frozenView
     [("a", some ⟨some [50], some [some 50]⟩)] (by with_unfolding_all rfl)⟩

/-- C4: the claim says yMin/yMax both absent auto-scales Y to the visible
data; but `setView` tests `yMin === null || yMax === null`, which is false
for absent (undefined) bounds, so the current Y domain [0,1] is kept even
though the auto-scaled Y domain over the target X domain would be
[90,110]. -/
theorem setView_absent_y_bounds_keep_current_domain :
    chartA100Framed.scaleYDomain = (0, 1) ∧
    chartA100Reframed.scaleYDomain = (0, 1) ∧
    calculateYDomain defaultChartConfig.yRange chartA100Framed.dataStore (0, 10) = (90, 110) ∧
    chartA100Reframed.scaleYDomain ≠
      calculateYDomain defaultChartConfig.yRange chartA100Framed.dataStore (0, 10) := by
  refine ⟨?_, ?_, ?_, ?_⟩
  · with_unfolding_all rfl
  · with_unfolding_all rfl
  · with_unfolding_all rfl
  · with_unfolding_all decide

/-- C7: adding the single point (5,5) to an empty following chart makes the
X domain exactly [4,6] and the Y domain exactly [4.5,5.5]; with no data at
all the computed domains are the default unit domain [0,1]. -/
theorem single_point_domains_and_empty_default :
    chartA55.scaleXDomain = (4, 6) ∧
    chartA55.scaleYDomain = (9 / 2, 11 / 2) ∧
    calculateXDomain defaultChartConfig.xRange [] = (0, 1) ∧
    calculateYDomain defaultChartConfig.yRange []
      (calculateXDomain defaultChartConfig.xRange []) = (0, 1) ∧
    (initChart defaultChartConfig).scaleXDomain = (0, 1) ∧
    (initChart defaultChartConfig).scaleYDomain = (0, 1) := by
  refine ⟨?_, ?_, ?_, ?_, ?_, ?_⟩ <;> with_unfolding_all rfl

/-- C8 counterexample: with one stored point (5,100) and the X domain
[1000,2000] containing no data, `calculateYDomain` returns the default
(0,1), not the full-data Y domain (90,110) the claim requires. -/
theorem calculateYDomain_fallback_is_not_fullYDomain :
    calculateYDomain ⟨none, none⟩ [("a", [⟨5, some 100⟩])] (1000, 2000) = (0, 1) ∧
    getFullYDomain [("a", [⟨5, some 100⟩])] = (90, 110) ∧
    calculateYDomain ⟨none, none⟩ [("a", [⟨5, some 100⟩])] (1000, 2000) ≠
      getFullYDomain [("a", [⟨5, some 100⟩])] := by
  refine ⟨?_, ?_, ?_⟩
  · with_unfolding_all rfl
  · with_unfolding_all rfl
  · with_unfolding_all decide

/-- C8 amended: with no configured Y range, when the X domain contains none
of the stored points the visible-Y computation returns the default unit
domain [0,1] (the configured bounds with defaults 0 and 1), not the
full-data computation. -/
theorem calculateYDomain_no_visible_returns_unit_default (ds : DataStore) (xd : ℚ × ℚ)
    (h : visibleYValues ds xd = []) :
    calculateYDomain ⟨none, none⟩ ds xd = (0, 1) :=
  calculateYDomain_no_visible_default ds xd h

/-- Witness for the amended C8 at a concrete non-empty store and a disjoint
X domain. -/
theorem calculateYDomain_no_visible_returns_unit_default_witness :
    visibleYValues [("a", [⟨5, some 100⟩])] (1000, 2000) = [] ∧
    calculateYDomain ⟨none, none⟩ [("a", [⟨5, some 100⟩])] (1000, 2000) = (0, 1) :=
  ⟨by with_unfolding_all rfl,
   calculateYDomain_no_visible_returns_unit_default _ _ (by with_unfolding_all rfl)⟩

/-- C9 counterexample: after `clearData` the series entry for "a" is gone
from the data store (lookup finds nothing), not present-and-empty as the
claim states. -/
theorem clearData_removes_series_entries :
    (dsLookup chartA55.dataStore "a").isSome = true ∧
    dsLookup (clearData chartA55).dataStore "a" = none := by
  constructor <;> with_unfolding_all rfl

/-- C9 amended: `clearData` resets the data store to a fresh empty object
(series buffer entries are deleted, not kept as empty buffers), retains all
series configs unchanged, leaves the following flag unchanged and, when not
following with an established frozen domain, leaves the frozen domain
unchanged. -/
theorem clearData_resets_store_keeps_view_state (s : ChartState)
    (hd : s.isDestroyed = false)
    (hfz : s.isFollowing = false → s.frozenDomain.isSome) :
    (clearData s).dataStore = [] ∧
    (clearData s).seriesConfigs = s.seriesConfigs ∧
    (clearData s).isFollowing = s.isFollowing ∧
    (s.isFollowing = false → (clearData s).frozenDomain = s.frozenDomain) :=
  clearData_state_effects s hd hfz

/-- Witness for the amended C9 at the frozen scenario state. -/
theorem clearData_resets_store_keeps_view_state_witness :
    (frozenView.isDestroyed = false ∧
     (frozenView.isFollowing = false → frozenView.frozenDomain.isSome)) ∧
    ((clearData frozenView).dataStore = [] ∧
     (clearData frozenView).seriesConfigs = frozenView.seriesConfigs ∧
     (clearData frozenView).isFollowing = frozenView.isFollowing ∧
     (frozenView.isFollowing = false →
       (clearData frozenView).frozenDomain = frozenView.frozenDomain)) :=
  ⟨⟨by with_unfolding_all rfl, fun _ => by with_unfolding_all rfl⟩,
   clearData_resets_store_keeps_view_state frozenView (by with_unfolding_all rfl)
     (fun _ => by with_unfolding_all rfl)⟩

/-- C10: with `maxDataPointsPerSeries` null, zero or negative, `pruneData`
leaves any buffer completely unchanged (pruning only applies to a number
strictly greater than 0). -/
theorem pruneData_noop_when_retention_disabled (mp : Option ℤ) (buf : List Point)
    (h : mp = none ∨ ∃ m, mp = some m ∧ m ≤ 0) :
    pruneData mp buf = buf := by
  rcases h with h | ⟨m, hm, hm0⟩
  · rw [h]
    rfl
  · subst hm
    show (if 0 < m ∧ m < ((buf.length : ℕ) : ℤ) then buf.drop (buf.length - m.toNat) else buf)
        = buf
    rw [if_neg (by omega)]

/-- Witness for C10: a negative retention limit leaves a 3-point buffer
untouched. -/
theorem pruneData_noop_when_retention_disabled_witness :
    pruneData (some (-2)) [⟨1, some 1⟩, ⟨2, some 2⟩, ⟨3, some 3⟩] =
      [⟨1, some 1⟩, ⟨2, some 2⟩, ⟨3, some 3⟩] :=
  pruneData_noop_when_retention_disabled (some (-2)) _ (Or.inr ⟨-2, rfl, by norm_num⟩)

theorem allXValues_append_empty (ds : DataStore) (id : String) :
    allXValues (ds ++ [(id, [])]) = allXValues ds := by
  simp [allXValues]

theorem visibleYValues_append_empty (ds : DataStore) (id : String) (xd : ℚ × ℚ) :
    visibleYValues (ds ++ [(id, [])]) xd = visibleYValues ds xd := by
  simp [visibleYValues]

theorem getFullXDomain_append_empty (ds : DataStore) (id : String) :
    getFullXDomain (ds ++ [(id, [])]) = getFullXDomain ds := by
  unfold getFullXDomain
  rw [allXValues_append_empty]

theorem calculateXDomain_append_empty (cr : RangeConfig) (ds : DataStore) (id : String) :
    calculateXDomain cr (ds ++ [(id, [])]) = calculateXDomain cr ds := by
  unfold calculateXDomain
  rw [getFullXDomain_append_empty]

theorem calculateYDomain_append_empty (cr : RangeConfig) (ds : DataStore) (id : String)
    (xd : ℚ × ℚ) :
    calculateYDomain cr (ds ++ [(id, [])]) xd = calculateYDomain cr ds xd := by
  unfold calculateYDomain
  rw [visibleYValues_append_empty]

theorem updateScaleDomains_append_empty (cfg : ChartConfig) (ds : DataStore) (id : String) :
    updateScaleDomains cfg (ds ++ [(id, [])]) = updateScaleDomains cfg ds := by
  unfold updateScaleDomains
  simp only [calculateXDomain_append_empty, calculateYDomain_append_empty]

theorem ensureSeriesExists_dataStore_cases (id : String) (ds : DataStore)
    (sc : List (String × SeriesConfig)) :
    (ensureSeriesExists id ds sc).1 = ds ∨
    (ensureSeriesExists id ds sc).1 = ds ++ [(id, [])] := by
  unfold ensureSeriesExists
  dsimp only
  split
  · left; rfl
  · right; rfl

theorem updateScaleDomains_ensureSeriesExists (cfg : ChartConfig) (id : String)
    (ds : DataStore) (sc : List (String × SeriesConfig)) :
    updateScaleDomains cfg (ensureSeriesExists id ds sc).1 = updateScaleDomains cfg ds := by
  rcases ensureSeriesExists_dataStore_cases id ds sc with h | h <;> rw [h]
  exact updateScaleDomains_append_empty cfg ds id

theorem ingest_dataAdded_true (cfg : ChartConfig) (entries : AddDataPayload)
    (ds : DataStore) (sc : List (String × SeriesConfig)) (w : ℕ) :
    (ingest cfg entries ds sc w true).dataAdded = true := by
  induction entries generalizing ds sc w with
  | nil => rfl
  | cons e rest ih =>
    obtain ⟨id, v⟩ := e
    unfold ingest
    dsimp only
    repeat' split
    all_goals exact ih _ _ _

theorem ingest_not_added_domains (cfg cfg2 : ChartConfig) (entries : AddDataPayload)
    (ds : DataStore) (sc : List (String × SeriesConfig)) (w : ℕ)
    (h : (ingest cfg entries ds sc w false).dataAdded = false) :
    updateScaleDomains cfg2 (ingest cfg entries ds sc w false).dataStore =
      updateScaleDomains cfg2 ds := by
  induction entries generalizing ds sc w with
  | nil => rfl
  | cons e rest ih =>
    obtain ⟨id, v⟩ := e
    rcases v with _ | ⟨sx, sy⟩
    · exact ih _ _ _ h
    · rcases sx with _ | xs
      · exact ih _ _ _ h
      · rcases sy with _ | ys
        · exact ih _ _ _ h
        · by_cases hlen : xs.length = ys.length
          · simp only [ingest, if_pos hlen] at h ⊢
            by_cases hemp : (List.zipWith (fun a b => (⟨a, b⟩ : Point)) xs ys).isEmpty = true
            · rw [if_pos hemp] at h ⊢
              exact (ih _ _ _ h).trans (updateScaleDomains_ensureSeriesExists cfg2 id ds sc)
            · rw [if_neg hemp] at h
              rw [ingest_dataAdded_true] at h
              exact absurd h (by simp)
          · simp only [ingest, if_neg hlen] at h ⊢
            exact ih _ _ _ h

theorem addData_config (p : AddDataPayload) (s : ChartState) :
    (addData p s).config = s.config := by
  unfold addData
  split
  · rfl
  · dsimp only
    split
    · rfl
    · split
      · rw [updateScalesAndAxes_config]
      · rfl

theorem addData_dataStore (p : AddDataPayload) (s : ChartState) :
    (addData p s).dataStore =
      if s.isDestroyed = true then s.dataStore
      else (ingest s.config p s.dataStore s.seriesConfigs s.warningCount false).dataStore := by
  unfold addData
  split
  · rfl
  · dsimp only
    split
    · rfl
    · split
      · rw [updateScalesAndAxes_dataStore]
      · rfl

theorem addData_warningCount (p : AddDataPayload) (s : ChartState) :
    (addData p s).warningCount =
      if s.isDestroyed = true then s.warningCount
      else (ingest s.config p s.dataStore s.seriesConfigs s.warningCount false).warningCount := by
  unfold addData
  split
  · rfl
  · dsimp only
    split
    · rfl
    · split
      · rw [updateScalesAndAxes_warningCount]
      · rfl

theorem updateScalesAndAxes_following_consistent (t : ChartState)
    (hf : t.isFollowing = true) (hz : t.isZoomingOrPanning = false)
    (hd : t.isDestroyed = false) :
    domainsConsistent (updateScalesAndAxes t) := by
  unfold updateScalesAndAxes
  rw [if_neg (by rw [hd]; simp), if_neg (by rw [hz]; simp), if_pos hf]
  exact ⟨rfl, rfl⟩

theorem initChart_domainsConsistent (cfg : ChartConfig) :
    domainsConsistent (initChart cfg) :=
  ⟨rfl, rfl⟩

theorem addData_preserves_domainsConsistent (s : ChartState) (p : AddDataPayload)
    (hf : s.isFollowing = true) (hz : s.isZoomingOrPanning = false)
    (hd : s.isDestroyed = false) (hc : domainsConsistent s) :
    domainsConsistent (addData p s) := by
  unfold addData
  rw [if_neg (by rw [hd]; simp)]
  dsimp only
  by_cases ha :
      (ingest s.config p s.dataStore s.seriesConfigs s.warningCount false).dataAdded = false
  · rw [if_pos ha]
    constructor
    · show s.scaleXDomain = _
      rw [show ({ s with
            dataStore := (ingest s.config p s.dataStore s.seriesConfigs s.warningCount false).dataStore,
            seriesConfigs := (ingest s.config p s.dataStore s.seriesConfigs s.warningCount false).seriesConfigs,
            warningCount := (ingest s.config p s.dataStore s.seriesConfigs s.warningCount false).warningCount
          } : ChartState).config = s.config from rfl]
      rw [ingest_not_added_domains s.config s.config p s.dataStore s.seriesConfigs s.warningCount ha]
      exact hc.1
    · show s.scaleYDomain = _
      rw [show ({ s with
            dataStore := (ingest s.config p s.dataStore s.seriesConfigs s.warningCount false).dataStore,
            seriesConfigs := (ingest s.config p s.dataStore s.seriesConfigs s.warningCount false).seriesConfigs,
            warningCount := (ingest s.config p s.dataStore s.seriesConfigs s.warningCount false).warningCount
          } : ChartState).config = s.config from rfl]
      rw [ingest_not_added_domains s.config s.config p s.dataStore s.seriesConfigs s.warningCount ha]
      exact hc.2
  · rw [if_neg ha]
    rw [if_pos (by rw [show ({ s with
          dataStore := (ingest s.config p s.dataStore s.seriesConfigs s.warningCount false).dataStore,
          seriesConfigs := (ingest s.config p s.dataStore s.seriesConfigs s.warningCount false).seriesConfigs,
          warningCount := (ingest s.config p s.dataStore s.seriesConfigs s.warningCount false).warningCount
        } : ChartState).isFollowing = s.isFollowing from rfl, hf,
        show ({ s with
          dataStore := (ingest s.config p s.dataStore s.seriesConfigs s.warningCount false).dataStore,
          seriesConfigs := (ingest s.config p s.dataStore s.seriesConfigs s.warningCount false).seriesConfigs,
          warningCount := (ingest s.config p s.dataStore s.seriesConfigs s.warningCount false).warningCount
        } : ChartState).isZoomingOrPanning = s.isZoomingOrPanning from rfl, hz]; rfl)]
    exact updateScalesAndAxes_following_consistent _ hf hz hd

theorem resetView_spec (s : ChartState) (hd : s.isDestroyed = false) :
    (resetView s).scaleXDomain = (updateScaleDomains s.config s.dataStore).1 ∧
    (resetView s).scaleYDomain = (updateScaleDomains s.config s.dataStore).2 ∧
    (resetView s).isFollowing = true ∧
    (resetView s).frozenDomain = none ∧
    (resetView s).currentZoomTransform = zoomIdentity := by
  unfold resetView
  rw [if_neg (by rw [hd]; simp)]
  unfold redraw updateScalesAndAxes
  dsimp only
  rw [if_neg (by rw [hd]; simp)]
  rw [if_neg (by simp)]
  rw [if_pos rfl]
  exact ⟨rfl, rfl, rfl, rfl, rfl⟩

theorem setView_config (v : ViewRequest) (s : ChartState) :
    (setView v s).config = s.config := by
  unfold setView
  split
  · rfl
  · unfold redraw
    rw [updateScalesAndAxes_config]

theorem setView_dataStore (v : ViewRequest) (s : ChartState) :
    (setView v s).dataStore = s.dataStore := by
  unfold setView
  split
  · rfl
  · unfold redraw
    rw [updateScalesAndAxes_dataStore]

theorem setView_isDestroyed (v : ViewRequest) (s : ChartState) :
    (setView v s).isDestroyed = s.isDestroyed := by
  unfold setView
  split
  · rfl
  · unfold redraw
    rw [updateScalesAndAxes_isDestroyed]

/-- C3: `setView` immediately followed by `resetView` yields the same axis
domains as a freshly constructed chart that ingested the same data (the
domain calculator's output on the shared data store), with following
re-enabled, the frozen domain cleared and the zoom transform exactly
identity. -/
theorem setView_then_resetView_matches_fresh_chart (s : ChartState) (v : ViewRequest)
    (p : AddDataPayload) (hd : s.isDestroyed = false)
    (hds : (addData p (initChart s.config)).dataStore = s.dataStore) :
    (resetView (setView v s)).scaleXDomain = (addData p (initChart s.config)).scaleXDomain ∧
    (resetView (setView v s)).scaleYDomain = (addData p (initChart s.config)).scaleYDomain ∧
    (resetView (setView v s)).isFollowing = true ∧
    (resetView (setView v s)).frozenDomain = none ∧
    (resetView (setView v s)).currentZoomTransform = zoomIdentity := by
  have h1 := resetView_spec (setView v s) (by rw [setView_isDestroyed, hd])
  rw [setView_config, setView_dataStore] at h1
  have hfresh : domainsConsistent (addData p (initChart s.config)) :=
    addData_preserves_domainsConsistent _ p rfl rfl rfl (initChart_domainsConsistent _)
  have hcfg : (addData p (initChart s.config)).config = s.config := by
    rw [addData_config]
    rfl
  refine ⟨?_, ?_, h1.2.2.1, h1.2.2.2.1, h1.2.2.2.2⟩
  · rw [h1.1, hfresh.1, hcfg, hds]
  · rw [h1.2.1, hfresh.2, hcfg, hds]

/-- Witness for C3: the single-point chart, a concrete `setView` request
and the payload that rebuilds the same data store. -/
theorem setView_then_resetView_matches_fresh_chart_witness :
    (chartA55.isDestroyed = false ∧
     (addData [("a", some ⟨some [5], some [some 5]⟩)] (initChart chartA55.config)).dataStore =
       chartA55.dataStore) ∧
    ((resetView (setView ⟨.num 0, .num 10, .undef, .undef⟩ chartA55)).scaleXDomain =
       (addData [("a", some ⟨some [5], some [some 5]⟩)] (initChart chartA55.config)).scaleXDomain ∧
     (resetView (setView ⟨.num 0, .num 10, .undef, .undef⟩ chartA55)).scaleYDomain =
       (addData [("a", some ⟨some [5], some [some 5]⟩)] (initChart chartA55.config)).scaleYDomain ∧
     (resetView (setView ⟨.num 0, .num 10, .undef, .undef⟩ chartA55)).isFollowing = true ∧
     (resetView (setView ⟨.num 0, .num 10, .undef, .undef⟩ chartA55)).frozenDomain = none ∧
     (resetView (setView ⟨.num 0, .num 10, .undef, .undef⟩ chartA55)).currentZoomTransform =
       zoomIdentity) :=
  ⟨⟨by with_unfolding_all rfl, by with_unfolding_all rfl⟩,
   setView_then_resetView_matches_fresh_chart chartA55 ⟨.num 0, .num 10, .undef, .undef⟩
     [("a", some ⟨some [5], some [some 5]⟩)]
     (by with_unfolding_all rfl) (by with_unfolding_all rfl)⟩

theorem pruneData_length_le (m : ℤ) (hm : 0 < m) (buf : List Point) :
    ((pruneData (some m) buf).length : ℤ) ≤ m := by
  show ((if 0 < m ∧ m < ((buf.length : ℕ) : ℤ) then buf.drop (buf.length - m.toNat)
         else buf).length : ℤ) ≤ m
  split
  · rename_i hcond
    rw [List.length_drop]
    omega
  · rename_i hcond
    omega

theorem pruneData_isSuffix (mp : Option ℤ) (buf : List Point) :
    List.IsSuffix (pruneData mp buf) buf := by
  cases mp with
  | none => exact List.suffix_refl _
  | some m =>
    show List.IsSuffix (if 0 < m ∧ m < ((buf.length : ℕ) : ℤ)
      then buf.drop (buf.length - m.toNat) else buf) buf
    split
    · exact List.drop_suffix _ _
    · exact List.suffix_refl _

theorem pruneData_drops_oldest (m : ℤ) (buf : List Point) (hm : 0 < m)
    (hlen : m < (buf.length : ℤ)) :
    pruneData (some m) buf = buf.drop (buf.length - m.toNat) := by
  show (if 0 < m ∧ m < ((buf.length : ℕ) : ℤ) then buf.drop (buf.length - m.toNat) else buf)
      = buf.drop (buf.length - m.toNat)
  rw [if_pos ⟨hm, hlen⟩]

theorem dsLookup_nil (j : String) : dsLookup [] j = none := rfl

theorem dsLookup_append_empty (ds : DataStore) (id j : String) (buf : List Point)
    (h : dsLookup (ds ++ [(id, [])]) j = some buf) :
    dsLookup ds j = some buf ∨ buf = [] := by
  unfold dsLookup at h ⊢
  rw [List.find?_append] at h
  cases hf : List.find? (fun e => e.1 == j) ds with
  | some e =>
    rw [hf] at h
    left
    simpa using h
  | none =>
    rw [hf] at h
    right
    cases hij : (id == j) with
    | true =>
      simp [List.find?, hij] at h
      exact h
    | false => simp [List.find?, hij] at h

theorem dsLookup_dsSet (ds : DataStore) (id j : String) (buf bj : List Point)
    (h : dsLookup (dsSet ds id buf) j = some bj) :
    bj = buf ∨ dsLookup ds j = some bj := by
  induction ds with
  | nil => cases h
  | cons e rest ih =>
    obtain ⟨k, b⟩ := e
    by_cases hkj : (k == j) = true
    · by_cases hkid : (k == id) = true
      · simp [dsLookup, dsSet, List.find?, hkid, hkj] at h
        exact Or.inl h.symm
      · simp [dsLookup, dsSet, List.find?, hkid, hkj] at h
        refine Or.inr ?_
        simp [dsLookup, List.find?, hkj]
        exact h
    · by_cases hkid : (k == id) = true
      · simp only [dsSet, List.map_cons, if_pos hkid] at h
        unfold dsLookup at h
        rw [List.find?_cons_of_neg] at h
        · rcases ih h with h1 | h1
          · exact Or.inl h1
          · refine Or.inr ?_
            unfold dsLookup
            rw [List.find?_cons_of_neg]
            · exact h1
            · exact fun hc => hkj hc
        · exact fun hc => hkj hc
      · simp only [dsSet, List.map_cons, if_neg hkid] at h
        unfold dsLookup at h
        rw [List.find?_cons_of_neg] at h
        · rcases ih h with h1 | h1
          · exact Or.inl h1
          · refine Or.inr ?_
            unfold dsLookup
            rw [List.find?_cons_of_neg]
            · exact h1
            · exact fun hc => hkj hc
        · exact fun hc => hkj hc

theorem storeBounded_nil (m : ℤ) : storeBounded m [] := by
  intro j buf h
  cases h

theorem storeBounded_append_empty (m : ℤ) (hm0 : 0 ≤ m) (ds : DataStore) (id : String)
    (h : storeBounded m ds) : storeBounded m (ds ++ [(id, [])]) := by
  intro j buf hj
  rcases dsLookup_append_empty ds id j buf hj with h2 | h2
  · exact h j buf h2
  · rw [h2]
    simpa using hm0

theorem storeBounded_ensureSeriesExists (m : ℤ) (hm0 : 0 ≤ m) (id : String)
    (ds : DataStore) (sc : List (String × SeriesConfig))
    (h : storeBounded m ds) : storeBounded m (ensureSeriesExists id ds sc).1 := by
  rcases ensureSeriesExists_dataStore_cases id ds sc with hc | hc <;> rw [hc]
  · exact h
  · exact storeBounded_append_empty m hm0 ds id h

theorem storeBounded_dsSet (m : ℤ) (ds : DataStore) (id : String) (buf : List Point)
    (hb : (buf.length : ℤ) ≤ m) (h : storeBounded m ds) :
    storeBounded m (dsSet ds id buf) := by
  intro j bj hj
  rcases dsLookup_dsSet ds id j buf bj hj with h1 | h1
  · rw [h1]
    exact hb
  · exact h j bj h1

theorem ingest_storeBounded (cfg : ChartConfig) (m : ℤ) (hm : 0 < m)
    (hcfg : cfg.maxDataPointsPerSeries = some m)
    (entries : AddDataPayload) (ds : DataStore) (sc : List (String × SeriesConfig))
    (w : ℕ) (b : Bool) (h : storeBounded m ds) :
    storeBounded m (ingest cfg entries ds sc w b).dataStore := by
  induction entries generalizing ds sc w b with
  | nil => exact h
  | cons e rest ih =>
    obtain ⟨id, v⟩ := e
    rcases v with _ | ⟨sx, sy⟩
    · exact ih _ _ _ _ h
    · rcases sx with _ | xs
      · exact ih _ _ _ _ h
      · rcases sy with _ | ys
        · exact ih _ _ _ _ h
        · by_cases hlen : xs.length = ys.length
          · simp only [ingest, if_pos hlen]
            by_cases hemp : (List.zipWith (fun a b => (⟨a, b⟩ : Point)) xs ys).isEmpty = true
            · rw [if_pos hemp]
              exact ih _ _ _ _ (storeBounded_ensureSeriesExists m (le_of_lt hm) id ds sc h)
            · rw [if_neg hemp]
              refine ih _ _ _ _ ?_
              rw [hcfg]
              exact storeBounded_dsSet m _ id _ (pruneData_length_le m hm _)
                (storeBounded_ensureSeriesExists m (le_of_lt hm) id ds sc h)
          · simp only [ingest, if_neg hlen]
            exact ih _ _ _ _ h

theorem addData_storeBounded (s : ChartState) (p : AddDataPayload) (m : ℤ) (hm : 0 < m)
    (hcfg : s.config.maxDataPointsPerSeries = some m)
    (h : storeBounded m s.dataStore) : storeBounded m (addData p s).dataStore := by
  rw [addData_dataStore]
  split
  · exact h
  · exact ingest_storeBounded s.config m hm hcfg p s.dataStore s.seriesConfigs
      s.warningCount false h

theorem foldl_addData_storeBounded_from (m : ℤ) (hm : 0 < m)
    (ps : List AddDataPayload) (s : ChartState)
    (hcfg : s.config.maxDataPointsPerSeries = some m)
    (h : storeBounded m s.dataStore) :
    storeBounded m ((ps.foldl (fun t q => addData q t) s).dataStore) := by
  induction ps generalizing s with
  | nil => exact h
  | cons q rest ih =>
    rw [List.foldl_cons]
    exact ih (addData q s)
      (by rw [addData_config]; exact hcfg)
      (addData_storeBounded s q m hm hcfg h)

/-- C5: with a positive `maxDataPointsPerSeries = m`, every series buffer
holds at most m points after any sequence of `addData` calls; pruning
removes exactly the oldest `length - max` points, keeping a suffix of the
buffer in arrival order; and the concrete max-3 scenario over points
(1,1)..(4,4) ends with buffer [(2,2),(3,3),(4,4)]. -/
theorem pruning_bounds_buffers_and_drops_oldest :
    (∀ (cfg : ChartConfig) (m : ℤ) (ps : List AddDataPayload) (id : String) (buf : List Point),
       cfg.maxDataPointsPerSeries = some m → 0 < m →
       dsLookup ((ps.foldl (fun t q => addData q t) (initChart cfg)).dataStore) id = some buf →
       (buf.length : ℤ) ≤ m) ∧
    (∀ (m : ℤ) (buf : List Point), 0 < m → m < (buf.length : ℤ) →
       pruneData (some m) buf = buf.drop (buf.length - m.toNat)) ∧
    (∀ (mp : Option ℤ) (buf : List Point), List.IsSuffix (pruneData mp buf) buf) ∧
    dsLookup prunedChart.dataStore "a" = some [⟨2, some 2⟩, ⟨3, some 3⟩, ⟨4, some 4⟩] := by
  refine ⟨?_, pruneData_drops_oldest, pruneData_isSuffix, by with_unfolding_all rfl⟩
  intro cfg m ps id buf hcfg hm hbuf
  exact foldl_addData_storeBounded_from m hm ps (initChart cfg) hcfg
    (storeBounded_nil m) id buf hbuf

/-- Witness for C5: the max-3 scenario buffer satisfies the length bound
and the drop equation at concrete inputs. -/
theorem pruning_bounds_buffers_and_drops_oldest_witness :
    (cfgMax3.maxDataPointsPerSeries = some 3 ∧ (0 : ℤ) < 3 ∧
     dsLookup prunedChart.dataStore "a" = some [⟨2, some 2⟩, ⟨3, some 3⟩, ⟨4, some 4⟩] ∧
     (([⟨2, some 2⟩, ⟨3, some 3⟩, ⟨4, some 4⟩] : List Point).length : ℤ) ≤ 3) ∧
    ((0 : ℤ) < 2 ∧ (2 : ℤ) < (([⟨1, some 1⟩, ⟨2, some 2⟩, ⟨3, some 3⟩] : List Point).length : ℤ) ∧
     pruneData (some 2) [⟨1, some 1⟩, ⟨2, some 2⟩, ⟨3, some 3⟩] =
       ([⟨1, some 1⟩, ⟨2, some 2⟩, ⟨3, some 3⟩] : List Point).drop
         (([⟨1, some 1⟩, ⟨2, some 2⟩, ⟨3, some 3⟩] : List Point).length - (2 : ℤ).toNat)) :=
  ⟨⟨rfl, by norm_num, by with_unfolding_all rfl,
    pruning_bounds_buffers_and_drops_oldest.1 cfgMax3 3
      [[("a", some ⟨some [1], some [some 1]⟩)],
       [("a", some ⟨some [2], some [some 2]⟩)],
       [("a", some ⟨some [3], some [some 3]⟩)],
       [("a", some ⟨some [4], some [some 4]⟩)]] "a" _ rfl (by norm_num)
      (by with_unfolding_all rfl)⟩,
   ⟨by norm_num, by norm_num,
    pruning_bounds_buffers_and_drops_oldest.2.1 2 _ (by norm_num) (by norm_num)⟩⟩

theorem entryValid_none (id : String) :
    entryValid (id, (none : Option SeriesInput)) = false := rfl

theorem ingest_filter_entryValid (cfg : ChartConfig) (entries : AddDataPayload)
    (ds : DataStore) (sc : List (String × SeriesConfig)) (w w2 : ℕ) (b b2 : Bool) :
    (ingest cfg entries ds sc w b).dataStore =
      (ingest cfg (entries.filter entryValid) ds sc w2 b2).dataStore ∧
    (ingest cfg entries ds sc w b).seriesConfigs =
      (ingest cfg (entries.filter entryValid) ds sc w2 b2).seriesConfigs := by
  induction entries generalizing ds sc w w2 b b2 with
  | nil => exact ⟨rfl, rfl⟩
  | cons e rest ih =>
    obtain ⟨id, v⟩ := e
    rcases v with _ | ⟨sx, sy⟩
    · rw [show ((id, (none : Option SeriesInput)) :: rest).filter entryValid
          = rest.filter entryValid from by simp [List.filter_cons, entryValid]]
      exact ih _ _ _ _ _ _
    · rcases sx with _ | xs
      · rw [show ((id, some (⟨none, sy⟩ : SeriesInput)) :: rest).filter entryValid
            = rest.filter entryValid from by
              rcases sy with _ | ys <;> simp [List.filter_cons, entryValid]]
        rcases sy with _ | ys
        · exact ih _ _ _ _ _ _
        · exact ih _ _ _ _ _ _
      · rcases sy with _ | ys
        · rw [show ((id, some (⟨some xs, none⟩ : SeriesInput)) :: rest).filter entryValid
              = rest.filter entryValid from by simp [List.filter_cons, entryValid]]
          exact ih _ _ _ _ _ _
        · by_cases hlen : xs.length = ys.length
          · rw [show ((id, some (⟨some xs, some ys⟩ : SeriesInput)) :: rest).filter entryValid
                = (id, some ⟨some xs, some ys⟩) :: rest.filter entryValid from by
                  simp [List.filter_cons, entryValid, hlen]]
            simp only [ingest, if_pos hlen]
            by_cases hemp : (List.zipWith (fun a b => (⟨a, b⟩ : Point)) xs ys).isEmpty = true
            · rw [if_pos hemp, if_pos hemp]
              exact ih _ _ _ _ _ _
            · rw [if_neg hemp, if_neg hemp]
              exact ih _ _ _ _ _ _
          · rw [show ((id, some (⟨some xs, some ys⟩ : SeriesInput)) :: rest).filter entryValid
                = rest.filter entryValid from by simp [List.filter_cons, entryValid, hlen]]
            simp only [ingest, if_neg hlen]
            exact ih _ _ _ _ _ _

theorem ingest_warningCount (cfg : ChartConfig) (entries : AddDataPayload)
    (ds : DataStore) (sc : List (String × SeriesConfig)) (w : ℕ) (b : Bool) :
    (ingest cfg entries ds sc w b).warningCount =
      w + (entries.filter (fun e => !(entryValid e))).length := by
  induction entries generalizing ds sc w b with
  | nil => simp [ingest]
  | cons e rest ih =>
    obtain ⟨id, v⟩ := e
    rcases v with _ | ⟨sx, sy⟩
    · have h1 : (ingest cfg ((id, none) :: rest) ds sc w b).warningCount
          = w + 1 + (rest.filter (fun e => !(entryValid e))).length := ih _ _ _ _
      rw [h1]
      rw [show ((id, (none : Option SeriesInput)) :: rest).filter (fun e => !(entryValid e))
          = (id, none) :: rest.filter (fun e => !(entryValid e)) from by
            simp [List.filter_cons, entryValid]]
      rw [List.length_cons]
      omega
    · rcases sx with _ | xs
      · have h1 : (ingest cfg ((id, some ⟨none, sy⟩) :: rest) ds sc w b).warningCount
            = w + 1 + (rest.filter (fun e => !(entryValid e))).length := by
          rcases sy with _ | ys
          · exact ih _ _ _ _
          · exact ih _ _ _ _
        rw [h1]
        rw [show ((id, some (⟨none, sy⟩ : SeriesInput)) :: rest).filter (fun e => !(entryValid e))
            = (id, some ⟨none, sy⟩) :: rest.filter (fun e => !(entryValid e)) from by
              rcases sy with _ | ys <;> simp [List.filter_cons, entryValid]]
        rw [List.length_cons]
        omega
      · rcases sy with _ | ys
        · have h1 : (ingest cfg ((id, some ⟨some xs, none⟩) :: rest) ds sc w b).warningCount
              = w + 1 + (rest.filter (fun e => !(entryValid e))).length := ih _ _ _ _
          rw [h1]
          rw [show ((id, some (⟨some xs, none⟩ : SeriesInput)) :: rest).filter
                (fun e => !(entryValid e))
              = (id, some ⟨some xs, none⟩) :: rest.filter (fun e => !(entryValid e)) from by
                simp [List.filter_cons, entryValid]]
          rw [List.length_cons]
          omega
        · by_cases hlen : xs.length = ys.length
          · rw [show ((id, some (⟨some xs, some ys⟩ : SeriesInput)) :: rest).filter
                  (fun e => !(entryValid e))
                = rest.filter (fun e => !(entryValid e)) from by
                  simp [List.filter_cons, entryValid, hlen]]
            simp only [ingest, if_pos hlen]
            by_cases hemp : (List.zipWith (fun a b => (⟨a, b⟩ : Point)) xs ys).isEmpty = true
            · rw [if_pos hemp]
              exact ih _ _ _ _
            · rw [if_neg hemp]
              exact ih _ _ _ _
          · have h1 : (ingest cfg ((id, some ⟨some xs, some ys⟩) :: rest) ds sc w b).warningCount
                = w + 1 + (rest.filter (fun e => !(entryValid e))).length := by
              simp only [ingest, if_neg hlen]
              exact ih _ _ _ _
            rw [h1]
            rw [show ((id, some (⟨some xs, some ys⟩ : SeriesInput)) :: rest).filter
                  (fun e => !(entryValid e))
                = (id, some ⟨some xs, some ys⟩) :: rest.filter (fun e => !(entryValid e)) from by
                  simp [List.filter_cons, entryValid, hlen]]
            rw [List.length_cons]
            omega

theorem dsLookup_ensureSeriesExists_ne (id2 j : String) (ds : DataStore)
    (sc : List (String × SeriesConfig)) (h : (id2 == j) = false) :
    dsLookup (ensureSeriesExists id2 ds sc).1 j = dsLookup ds j := by
  rcases ensureSeriesExists_dataStore_cases id2 ds sc with hc | hc <;> rw [hc]
  unfold dsLookup
  rw [List.find?_append]
  cases hf : List.find? (fun e => e.1 == j) ds
  · simp [List.find?, h]
  · simp

theorem dsLookup_dsSet_ne (ds : DataStore) (id2 j : String) (buf : List Point)
    (h : (j == id2) = false) :
    dsLookup (dsSet ds id2 buf) j = dsLookup ds j := by
  induction ds with
  | nil => rfl
  | cons e rest ih =>
    obtain ⟨k, b⟩ := e
    by_cases hkid : (k == id2) = true
    · have hkj : (k == j) = false := by
        rw [beq_iff_eq] at hkid
        rw [beq_eq_false_iff_ne] at h ⊢
        rw [hkid]
        exact fun hc => h hc.symm
      rw [show dsSet ((k, b) :: rest) id2 buf = (k, buf) :: dsSet rest id2 buf from by
        simp only [dsSet, List.map_cons, if_pos hkid]]
      unfold dsLookup
      rw [List.find?_cons_of_neg, List.find?_cons_of_neg]
      · exact ih
      · simp [hkj]
      · simp [hkj]
    · rw [show dsSet ((k, b) :: rest) id2 buf = (k, b) :: dsSet rest id2 buf from by
        simp only [dsSet, List.map_cons, if_neg hkid]]
      by_cases hkj : (k == j) = true
      · unfold dsLookup
        rw [List.find?_cons_of_pos, List.find?_cons_of_pos]
        · exact hkj
        · exact hkj
      · unfold dsLookup
        rw [List.find?_cons_of_neg, List.find?_cons_of_neg]
        · exact ih
        · simp [hkj]
        · simp [hkj]

theorem ingest_lookup_untouched (cfg : ChartConfig) (entries : AddDataPayload)
    (ds : DataStore) (sc : List (String × SeriesConfig)) (w : ℕ) (b : Bool) (j : String)
    (h : ∀ e ∈ entries, entryValid e = true → e.1 ≠ j) :
    dsLookup (ingest cfg entries ds sc w b).dataStore j = dsLookup ds j := by
  induction entries generalizing ds sc w b with
  | nil => rfl
  | cons e rest ih =>
    obtain ⟨id, v⟩ := e
    have hrest : ∀ e ∈ rest, entryValid e = true → e.1 ≠ j :=
      fun e he => h e (List.mem_cons_of_mem _ he)
    rcases v with _ | ⟨sx, sy⟩
    · exact ih _ _ _ _ hrest
    · rcases sx with _ | xs
      · rcases sy with _ | ys
        · exact ih _ _ _ _ hrest
        · exact ih _ _ _ _ hrest
      · rcases sy with _ | ys
        · exact ih _ _ _ _ hrest
        · by_cases hlen : xs.length = ys.length
          · have hid : id ≠ j := by
              refine h (id, some ⟨some xs, some ys⟩) (List.mem_cons_self _ _) ?_
              simp [entryValid, hlen]
            have hid2 : (id == j) = false := by
              rw [beq_eq_false_iff_ne]
              exact hid
            have hid3 : (j == id) = false := by
              rw [beq_eq_false_iff_ne]
              exact fun hc => hid hc.symm
            simp only [ingest, if_pos hlen]
            by_cases hemp : (List.zipWith (fun a b => (⟨a, b⟩ : Point)) xs ys).isEmpty = true
            · rw [if_pos hemp]
              rw [ih _ _ _ _ hrest]
              exact dsLookup_ensureSeriesExists_ne id j ds sc hid2
            · rw [if_neg hemp]
              rw [ih _ _ _ _ hrest]
              rw [dsLookup_dsSet_ne _ _ _ _ hid3]
              exact dsLookup_ensureSeriesExists_ne id j ds sc hid2
          · simp only [ingest, if_neg hlen]
            exact ih _ _ _ _ hrest

/-- C6: malformed `addData` series entries (missing value, non-array x/y,
mismatched lengths) are rejected per-series: the resulting data store is the
one obtained from the well-formed entries alone, each malformed entry adds
exactly one warning, and a series named only by malformed entries is left
untouched.  `addData` is a total function, so no entry aborts the call. -/
theorem addData_rejects_malformed_series_per_series :
    (∀ (p : AddDataPayload) (s : ChartState),
       (addData p s).dataStore = (addData (p.filter entryValid) s).dataStore) ∧
    (∀ (p : AddDataPayload) (s : ChartState), s.isDestroyed = false →
       (addData p s).warningCount =
         s.warningCount + (p.filter (fun e => !(entryValid e))).length) ∧
    (∀ (p : AddDataPayload) (s : ChartState) (id : String),
       (∀ e ∈ p, entryValid e = true → e.1 ≠ id) →
       dsLookup (addData p s).dataStore id = dsLookup s.dataStore id) := by
  refine ⟨?_, ?_, ?_⟩
  · intro p s
    rw [addData_dataStore, addData_dataStore]
    split
    · rfl
    · exact (ingest_filter_entryValid s.config p s.dataStore s.seriesConfigs
        s.warningCount s.warningCount false false).1
  · intro p s hd
    rw [addData_warningCount, if_neg (by rw [hd]; simp)]
    exact ingest_warningCount s.config p s.dataStore s.seriesConfigs s.warningCount false
  · intro p s id hp
    rw [addData_dataStore]
    split
    · rfl
    · exact ingest_lookup_untouched s.config p s.dataStore s.seriesConfigs
        s.warningCount false id hp

/-- Witness for C6: a call mixing a missing value ("bad"), a well-formed
series ("good") and mismatched lengths ("ugly") on a fresh chart: the store
equals the one from the valid entry alone, exactly two warnings are added,
and series "bad" stays absent. -/
theorem addData_rejects_malformed_series_per_series_witness :
    ((initChart defaultChartConfig).isDestroyed = false ∧
     (∀ e ∈ ([("bad", none),
              ("good", some ⟨some [1], some [some 2]⟩),
              ("ugly", some ⟨some [1, 2], some [some 3]⟩)] : AddDataPayload),
        entryValid e = true → e.1 ≠ "bad")) ∧
    ((addData [("bad", none),
               ("good", some ⟨some [1], some [some 2]⟩),
               ("ugly", some ⟨some [1, 2], some [some 3]⟩)]
        (initChart defaultChartConfig)).warningCount =
       (initChart defaultChartConfig).warningCount +
         (([("bad", none),
            ("good", some ⟨some [1], some [some 2]⟩),
            ("ugly", some ⟨some [1, 2], some [some 3]⟩)] : AddDataPayload).filter
              (fun e => !(entryValid e))).length ∧
     dsLookup (addData [("bad", none),
               ("good", some ⟨some [1], some [some 2]⟩),
               ("ugly", some ⟨some [1, 2], some [some 3]⟩)]
        (initChart defaultChartConfig)).dataStore "bad" =
       dsLookup (initChart defaultChartConfig).dataStore "bad") :=
  ⟨⟨by with_unfolding_all rfl, by with_unfolding_all decide⟩,
   addData_rejects_malformed_series_per_series.2.1 _ (initChart defaultChartConfig)
     (by with_unfolding_all rfl),
   addData_rejects_malformed_series_per_series.2.2 _ (initChart defaultChartConfig) "bad"
     (by with_unfolding_all decide)⟩
